import Mathlib

/-!
Verification development for the wardrobe-management backend
(`src/backend/main.py`, `src/app.py`).

The FastAPI handlers in `src/backend/main.py` are embedded as pure Lean
functions.  External collaborators (the Supabase table client, the AI
tagging/generation service, the weather provider, and the
`WardrobeService` helper methods) are implemented in modules that are not
part of the source tree, so they are modelled as parameters: each handler
takes an environment record bundling the readiness flags of the service
handles and the functional behaviour of the service calls.  Handlers that
interact with external services also return a chronological trace of the
external calls they perform, so that statements of the form "no tagging
call is made" are expressible.

HTTP errors (`raise HTTPException(status_code=..., detail=...)`) are
modelled with `Except HttpErr`.  Python truthiness is translated
pointwise: an empty list or `None` is falsy, a non-empty list truthy.
-/

/-- An HTTP error response, as produced by `raise HTTPException(...)`. -/
structure HttpErr where
  status : Nat
  detail : String
deriving Repr, DecidableEq

/-- Starlette's `HTTPException.__str__`, used when a broad
`except Exception as e` interpolates `str(e)` into a 500 detail. -/
def strOfErr (e : HttpErr) : String :=
  toString e.status ++ ": " ++ e.detail

/-- A handler body wrapped in `try: ... except Exception as e:
raise HTTPException(status_code=500, detail=pre + str(e))` with NO
preceding `except HTTPException: raise` clause: every error raised inside
the body, including an `HTTPException`, is converted to a 500. -/
def catchAll (pre : String) (body : Except HttpErr α) : Except HttpErr α :=
  match body with
  | .ok v => .ok v
  | .error e => .error ⟨500, pre ++ strOfErr e⟩

/-- Raw image bytes (`await file.read()`). -/
abbrev Img := List Nat

/-- The content hash computed by `wardrobe_service.get_image_hash`. -/
abbrev Hash := Nat

/-- The structured tag record returned by the AI tagging service for one
image; `upload_images` reads `tags['name']`, `tags['category']`,
`tags['color']`, `tags.get('style', '')` and `int(tags['warmth'])`. -/
structure Tags where
  name : String
  category : String
  color : String
  style : Option String
  warmth : Int
deriving Repr, DecidableEq

/-- `database.models.ClothingItem` as constructed by `upload_images`
(spec data model: id, user_id, name, category, color, style, warmth). -/
structure ClothingItem where
  user_id : String
  name : String
  category : String
  color : String
  style : String
  warmth : Int
deriving Repr, DecidableEq

/-- The `ClothingItem(...)` construction inside the upload loop:
`style` defaults to `""` via `tags.get('style', '')`, and
`int(tags['warmth'])` is the already-integral warmth value. -/
def mkItem (uid : String) (tags : Tags) : ClothingItem :=
  ⟨uid, tags.name, tags.category, tags.color, tags.style.getD "", tags.warmth⟩

/-- External calls performed by the `/api/upload` handler, in
chronological order. -/
inductive UploadEvent where
  | readFile : Img → UploadEvent
  | tagCall : List Img → UploadEvent
  | dupCheck : String → Hash → UploadEvent
  | saveCall : ClothingItem → Img → UploadEvent
deriving Repr, DecidableEq

/-- The environment of `/api/upload`: readiness of the two service
handles checked by `if not all([ai_service, wardrobe_service])`, plus the
behaviour of the four external calls the handler makes. -/
structure UploadEnv where
  aiReady : Bool
  wardrobeReady : Bool
  getImageHash : Img → Hash
  checkDuplicate : String → Hash → Bool × String
  batchAutoTag : List Img → List Tags
  saveItem : ClothingItem → Img → Bool × String

/-- The counters and saved-item list accumulated by the upload loop. -/
structure UploadCounts where
  success_count : Nat
  duplicate_count : Nat
  fail_count : Nat
  items : List Tags
deriving Repr, DecidableEq

/-- The JSON body returned by `/api/upload` on success. -/
structure UploadResponse where
  success : Bool
  success_count : Nat
  duplicate_count : Nat
  fail_count : Nat
  items : List Tags
deriving Repr, DecidableEq

/-- The `for img_bytes, tags in zip(img_bytes_list, tags_list)` loop of
`upload_images`: per pair, compute the hash, run the duplicate check,
skip duplicates (counting them), otherwise build the `ClothingItem`, call
`save_item`, and count success or failure; successful tags are appended
to `saved_items` in loop order.  Returns the accumulated counters and the
chronological trace of external calls. -/
def uploadLoop (env : UploadEnv) (uid : String) :
    List (Img × Tags) → UploadCounts × List UploadEvent
  | [] => (⟨0, 0, 0, []⟩, [])
  | p :: rest =>
    let h := env.getImageHash p.1
    let prev := uploadLoop env uid rest
    if (env.checkDuplicate uid h).1 then
      (⟨prev.1.success_count, prev.1.duplicate_count + 1, prev.1.fail_count, prev.1.items⟩,
       UploadEvent.dupCheck uid h :: prev.2)
    else if (env.saveItem (mkItem uid p.2) p.1).1 then
      (⟨prev.1.success_count + 1, prev.1.duplicate_count, prev.1.fail_count, p.2 :: prev.1.items⟩,
       UploadEvent.dupCheck uid h :: UploadEvent.saveCall (mkItem uid p.2) p.1 :: prev.2)
    else
      (⟨prev.1.success_count, prev.1.duplicate_count, prev.1.fail_count + 1, prev.1.items⟩,
       UploadEvent.dupCheck uid h :: UploadEvent.saveCall (mkItem uid p.2) p.1 :: prev.2)

/-- The `/api/upload` handler `upload_images`:
readiness check (503), file-count check (400), read every file, one
batched tagging call over ALL read images, abort with 500 when the tag
list is falsy (`None` or empty, both modelled by `[]`), otherwise run the
per-pair loop over `zip(img_bytes_list, tags_list)` and return the
counters.  This handler has an `except HTTPException: raise` clause, so
its `HTTPException`s surface unchanged. -/
def upload_images (env : UploadEnv) (uid : String) (files : List Img) :
    Except HttpErr UploadResponse × List UploadEvent :=
  if !(env.aiReady && env.wardrobeReady) then
    (.error ⟨503, "AI 服務未就緒"⟩, [])
  else if files.length > 10 then
    (.error ⟨400, "一次最多上傳 10 張圖片"⟩, [])
  else
    let tags_list := env.batchAutoTag files
    if tags_list.isEmpty then
      (.error ⟨500, "AI 辨識失敗"⟩,
       files.map UploadEvent.readFile ++ [UploadEvent.tagCall files])
    else
      let res := uploadLoop env uid (files.zip tags_list)
      (.ok ⟨true, res.1.success_count, res.1.duplicate_count, res.1.fail_count, res.1.items⟩,
       files.map UploadEvent.readFile ++ UploadEvent.tagCall files :: res.2)

/-- A row of the `users` table. -/
structure UserRow where
  id : Nat
  username : String
  password : String
deriving Repr, DecidableEq

/-- The `users` table of the external relational store, in insertion
order; `supabase_client` being `None` is `Option.none` at the call
sites. -/
abbrev UsersTable := List UserRow

/-- The success body of `/api/login`. -/
structure LoginOk where
  user_id : String
  username : String
deriving Repr, DecidableEq

/-- The `/api/login` handler: 503 when the database handle is absent;
otherwise select the rows matching BOTH username and password
(`.eq("username", ...).eq("password", ...)`), succeed with the first
match's id stringified, or fail 401. -/
def login (dbOpt : Option UsersTable) (username password : String) :
    Except HttpErr LoginOk :=
  match dbOpt with
  | none => .error ⟨503, "資料庫服務未就緒"⟩
  | some db =>
    match db.filter (fun r => r.username == username && r.password == password) with
    | r :: _ => .ok ⟨toString r.id, username⟩
    | [] => .error ⟨401, "帳號或密碼錯誤"⟩

/-- The `/api/register` handler: 503 when the database handle is absent;
select rows with the same username, fail 400 when any exist, otherwise
insert the new row (the store assigns it the fresh id `newId`) and
succeed.  The second component is the table after the call. -/
def register (dbOpt : Option UsersTable) (newId : Nat) (u p : String) :
    Except HttpErr String × Option UsersTable :=
  match dbOpt with
  | none => (.error ⟨503, "資料庫服務未就緒"⟩, none)
  | some db =>
    if (db.filter (fun r => r.username == u)).isEmpty = false then
      (.error ⟨400, "使用者名稱已存在"⟩, some db)
    else
      (.ok "註冊成功", some (db ++ [⟨newId, u, p⟩]))

/-- The `/api/wardrobe` handler: its `try` block raises 503 when the
wardrobe service handle is absent, else returns the items and their
count; the block has NO `except HTTPException: raise`, so `catchAll`
converts every raised error — the 503 included — to a 500. -/
def get_wardrobe (ready : Bool) (getFn : String → List ClothingItem)
    (uid : String) : Except HttpErr (List ClothingItem × Nat) :=
  catchAll "獲取衣櫥失敗: "
    (if !ready then .error ⟨503, "衣櫥服務未就緒"⟩
     else
       let items := getFn uid
       .ok (items, items.length))

/-- The `/api/wardrobe/delete` handler: raises 503 inside its `try` when
the wardrobe service handle is absent, else reports the per-item deletion
outcome; no `except HTTPException: raise`, so errors become 500s. -/
def delete_item (ready : Bool) (deleteFn : String → Nat → Bool)
    (uid : String) (item_id : Nat) : Except HttpErr (Bool × String) :=
  catchAll "刪除失敗: "
    (if !ready then .error ⟨503, "衣櫥服務未就緒"⟩
     else
       let success := deleteFn uid item_id
       .ok (success, if success then "刪除成功" else "刪除失敗"))

/-- Modelled from the spec: `WardrobeService.batch_delete_items` lives in
`api/wardrobe_service.py`, which is not part of the source tree (only its
callers in `src/backend/main.py` and `src/app.py` are).  Spec §4.2:
"given a user identifier and a list of item ids, attempt deletion of
each; tally success/fail counts; overall success is reported only if
every individual deletion succeeded."  The user's wardrobe is the list of
item ids they own; deleting an id succeeds exactly when the id is
present.  Returns `((success, success_count, fail_count), wardrobe
after)`.  `delStep` is the per-id step: accumulator is
(success_count, fail_count, remaining wardrobe). -/
def delStep (acc : Nat × Nat × List Nat) (id : Nat) : Nat × Nat × List Nat :=
  if acc.2.2.contains id then (acc.1 + 1, acc.2.1, acc.2.2.erase id)
  else (acc.1, acc.2.1 + 1, acc.2.2)

/-- Modelled from the spec (see `delStep`): the fold over all ids with
the overall success flag computed from the final fail count. -/
def batch_delete_items (wardrobe : List Nat) (ids : List Nat) :
    (Bool × Nat × Nat) × List Nat :=
  let res := ids.foldl delStep (0, 0, wardrobe)
  ((res.2.1 == 0, res.1, res.2.1), res.2.2)

/-- The `/api/wardrobe/batch-delete` handler: raises 503 inside its `try`
when the wardrobe service handle is absent, else forwards to
`batch_delete_items` and returns its flag and counters; no
`except HTTPException: raise`, so errors become 500s.  The second
component is the wardrobe after the call. -/
def batch_delete (ready : Bool) (wardrobe : List Nat) (uid : String)
    (item_ids : List Nat) : Except HttpErr (Bool × Nat × Nat) × List Nat :=
  if !ready then
    (catchAll "批次刪除失敗: " (.error ⟨503, "衣櫥服務未就緒"⟩), wardrobe)
  else
    let res := batch_delete_items wardrobe item_ids
    (.ok res.1, res.2)

/-- `WeatherData` (spec data model): ephemeral per-request value. -/
structure WeatherData where
  temperature : Int
  condition : String
deriving Repr, DecidableEq

/-- External calls performed by `/api/recommendation`. -/
inductive RecoEvent where
  | wardrobeCall : String → RecoEvent
  | weatherCall : String → RecoEvent
  | generateCall : RecoEvent
  | parseCall : RecoEvent
deriving Repr, DecidableEq

/-- The environment of `/api/recommendation`: readiness of the three
service handles checked by
`if not all([ai_service, weather_service, wardrobe_service])`, plus the
behaviour of the external calls.  `generateOutfit` returning `""` models
a falsy generation result (`None` or empty text). -/
structure RecoEnv where
  aiReady : Bool
  weatherReady : Bool
  wardrobeReady : Bool
  getWardrobe : String → List ClothingItem
  getWeather : String → Option WeatherData
  generateOutfit : List ClothingItem → WeatherData → String → String → String
  parseItems : String → List ClothingItem → List ClothingItem

/-- The JSON body returned by `/api/recommendation` on success. -/
structure RecoResponse where
  recommendation : String
  items : List ClothingItem
  weather : WeatherData
deriving Repr, DecidableEq

/-- The `/api/recommendation` handler `get_recommendation`: readiness
check (503); load the wardrobe, 404 when empty; load the weather, 404
when unavailable; default the style string when empty; call the
generator, 500 when its result is falsy; parse the recommended items and
return.  This handler has an `except HTTPException: raise` clause, so its
`HTTPException`s surface unchanged. -/
def get_recommendation (env : RecoEnv) (uid city style occasion : String) :
    Except HttpErr RecoResponse × List RecoEvent :=
  if !(env.aiReady && env.weatherReady && env.wardrobeReady) then
    (.error ⟨503, "推薦服務未就緒"⟩, [])
  else
    let wardrobe := env.getWardrobe uid
    if wardrobe.isEmpty then
      (.error ⟨404, "衣櫥是空的，請先上傳衣服"⟩, [RecoEvent.wardrobeCall uid])
    else
      match env.getWeather city with
      | none =>
        (.error ⟨404, "無法獲取天氣資料"⟩,
         [RecoEvent.wardrobeCall uid, RecoEvent.weatherCall city])
      | some weather =>
        let style2 := if style = "" then "不限定風格" else style
        let reco := env.generateOutfit wardrobe weather style2 occasion
        if reco = "" then
          (.error ⟨500, "AI 推薦生成失敗"⟩,
           [RecoEvent.wardrobeCall uid, RecoEvent.weatherCall city,
            RecoEvent.generateCall])
        else
          (.ok ⟨reco, env.parseItems reco wardrobe, weather⟩,
           [RecoEvent.wardrobeCall uid, RecoEvent.weatherCall city,
            RecoEvent.generateCall, RecoEvent.parseCall])

/-! Helper predicates and lemmas about the upload loop. -/

/-- The duplicate-check outcome for one zipped (image, tags) pair. -/
def pairIsDup (env : UploadEnv) (uid : String) (p : Img × Tags) : Bool :=
  (env.checkDuplicate uid (env.getImageHash p.1)).1

/-- The persistence outcome for one zipped (image, tags) pair. -/
def pairSaved (env : UploadEnv) (uid : String) (p : Img × Tags) : Bool :=
  (env.saveItem (mkItem uid p.2) p.1).1

theorem uploadLoop_duplicate_count (env : UploadEnv) (uid : String)
    (pairs : List (Img × Tags)) :
    (uploadLoop env uid pairs).1.duplicate_count
      = pairs.countP (pairIsDup env uid) := by
  induction pairs with
  | nil => simp [uploadLoop]
  | cons p rest ih =>
    by_cases hd : (env.checkDuplicate uid (env.getImageHash p.1)).1
    · simp [uploadLoop, hd, List.countP_cons, pairIsDup, ih]
    · by_cases hs : (env.saveItem (mkItem uid p.2) p.1).1
      · simp [uploadLoop, hd, hs, List.countP_cons, pairIsDup, ih]
      · simp [uploadLoop, hd, hs, List.countP_cons, pairIsDup, ih]

theorem uploadLoop_success_count (env : UploadEnv) (uid : String)
    (pairs : List (Img × Tags)) :
    (uploadLoop env uid pairs).1.success_count
      = pairs.countP (fun p => !pairIsDup env uid p && pairSaved env uid p) := by
  induction pairs with
  | nil => simp [uploadLoop]
  | cons p rest ih =>
    by_cases hd : (env.checkDuplicate uid (env.getImageHash p.1)).1
    · simp [uploadLoop, hd, List.countP_cons, pairIsDup, pairSaved, ih]
    · by_cases hs : (env.saveItem (mkItem uid p.2) p.1).1
      · simp [uploadLoop, hd, hs, List.countP_cons, pairIsDup, pairSaved, ih]
      · simp [uploadLoop, hd, hs, List.countP_cons, pairIsDup, pairSaved, ih]

theorem uploadLoop_fail_count (env : UploadEnv) (uid : String)
    (pairs : List (Img × Tags)) :
    (uploadLoop env uid pairs).1.fail_count
      = pairs.countP (fun p => !pairIsDup env uid p && !pairSaved env uid p) := by
  induction pairs with
  | nil => simp [uploadLoop]
  | cons p rest ih =>
    by_cases hd : (env.checkDuplicate uid (env.getImageHash p.1)).1
    · simp [uploadLoop, hd, List.countP_cons, pairIsDup, pairSaved, ih]
    · by_cases hs : (env.saveItem (mkItem uid p.2) p.1).1
      · simp [uploadLoop, hd, hs, List.countP_cons, pairIsDup, pairSaved, ih]
      · simp [uploadLoop, hd, hs, List.countP_cons, pairIsDup, pairSaved, ih]

theorem uploadLoop_items (env : UploadEnv) (uid : String)
    (pairs : List (Img × Tags)) :
    (uploadLoop env uid pairs).1.items
      = (pairs.filter (fun p => !pairIsDup env uid p && pairSaved env uid p)).map
          Prod.snd := by
  induction pairs with
  | nil => simp [uploadLoop]
  | cons p rest ih =>
    by_cases hd : (env.checkDuplicate uid (env.getImageHash p.1)).1
    · simp [uploadLoop, hd, List.filter_cons, pairIsDup, pairSaved, ih]
    · by_cases hs : (env.saveItem (mkItem uid p.2) p.1).1
      · simp [uploadLoop, hd, hs, List.filter_cons, pairIsDup, pairSaved, ih]
      · simp [uploadLoop, hd, hs, List.filter_cons, pairIsDup, pairSaved, ih]

theorem uploadLoop_total (env : UploadEnv) (uid : String)
    (pairs : List (Img × Tags)) :
    (uploadLoop env uid pairs).1.success_count
      + (uploadLoop env uid pairs).1.duplicate_count
      + (uploadLoop env uid pairs).1.fail_count = pairs.length := by
  induction pairs with
  | nil => simp [uploadLoop]
  | cons p rest ih =>
    by_cases hd : (env.checkDuplicate uid (env.getImageHash p.1)).1
    · simp [uploadLoop, hd]; omega
    · by_cases hs : (env.saveItem (mkItem uid p.2) p.1).1
      · simp [uploadLoop, hd, hs]; omega
      · simp [uploadLoop, hd, hs]; omega

theorem uploadLoop_save_mem (env : UploadEnv) (uid : String)
    (pairs : List (Img × Tags)) (item : ClothingItem) (img : Img)
    (hmem : UploadEvent.saveCall item img ∈ (uploadLoop env uid pairs).2) :
    ∃ p ∈ pairs, p.1 = img ∧ item = mkItem uid p.2
      ∧ (env.checkDuplicate uid (env.getImageHash img)).1 = false := by
  induction pairs with
  | nil => simp [uploadLoop] at hmem
  | cons p rest ih =>
    by_cases hd : (env.checkDuplicate uid (env.getImageHash p.1)).1
    · simp only [uploadLoop, hd, if_pos, List.mem_cons] at hmem
      rcases hmem with hmem | hmem
      · exact absurd hmem (by simp)
      · obtain ⟨q, hq, h1, h2, h3⟩ := ih hmem
        exact ⟨q, List.mem_cons_of_mem p hq, h1, h2, h3⟩
    · have hstep : (uploadLoop env uid (p :: rest)).2
          = UploadEvent.dupCheck uid (env.getImageHash p.1)
            :: UploadEvent.saveCall (mkItem uid p.2) p.1
            :: (uploadLoop env uid rest).2 := by
        by_cases hs : (env.saveItem (mkItem uid p.2) p.1).1
        · simp [uploadLoop, hd, hs]
        · simp [uploadLoop, hd, hs]
      rw [hstep] at hmem
      simp only [List.mem_cons] at hmem
      rcases hmem with hmem | hmem | hmem
      · exact absurd hmem (by simp)
      · refine ⟨p, List.mem_cons_self p rest, ?_, ?_, ?_⟩
        · cases hmem; rfl
        · cases hmem; rfl
        · cases hmem
          simpa using hd
      · obtain ⟨q, hq, h1, h2, h3⟩ := ih hmem
        exact ⟨q, List.mem_cons_of_mem p hq, h1, h2, h3⟩

theorem uploadLoop_dupCheck_mem (env : UploadEnv) (uid : String)
    (pairs : List (Img × Tags)) (p : Img × Tags) (hp : p ∈ pairs) :
    UploadEvent.dupCheck uid (env.getImageHash p.1)
      ∈ (uploadLoop env uid pairs).2 := by
  induction pairs with
  | nil => simp at hp
  | cons q rest ih =>
    rcases List.mem_cons.1 hp with hp | hp
    · subst hp
      by_cases hd : (env.checkDuplicate uid (env.getImageHash p.1)).1
      · simp [uploadLoop, hd]
      · by_cases hs : (env.saveItem (mkItem uid p.2) p.1).1
        · simp [uploadLoop, hd, hs]
        · simp [uploadLoop, hd, hs]
    · have hmem := ih hp
      by_cases hd : (env.checkDuplicate uid (env.getImageHash q.1)).1
      · simp [uploadLoop, hd, hmem]
      · by_cases hs : (env.saveItem (mkItem uid q.2) q.1).1
        · simp [uploadLoop, hd, hs, hmem]
        · simp [uploadLoop, hd, hs, hmem]

/-! Sample environments used by witnesses and counterexamples. -/

/-- A sample tag record. -/
def tagsShirt : Tags := ⟨"shirt", "top", "blue", some "casual", 3⟩

/-- An upload environment where no stored hash matches (nothing is a
duplicate) and every save succeeds. -/
def envFresh : UploadEnv where
  aiReady := true
  wardrobeReady := true
  getImageHash := fun img => img.length
  checkDuplicate := fun _ _ => (false, "")
  batchAutoTag := fun imgs => imgs.map fun _ => tagsShirt
  saveItem := fun _ _ => (true, "ok")

/-- An upload environment where every image's hash matches a stored
item: the duplicate check reports true for every image. -/
def envDup : UploadEnv where
  aiReady := true
  wardrobeReady := true
  getImageHash := fun _ => 7
  checkDuplicate := fun _ _ => (true, "existing")
  batchAutoTag := fun imgs => imgs.map fun _ => tagsShirt
  saveItem := fun _ _ => (true, "ok")

/-- An upload environment whose tagging service returns no tags. -/
def envNoTags : UploadEnv where
  aiReady := true
  wardrobeReady := true
  getImageHash := fun img => img.length
  checkDuplicate := fun _ _ => (false, "")
  batchAutoTag := fun _ => []
  saveItem := fun _ _ => (true, "ok")

/-- An upload environment where persistence always fails. -/
def envSaveFail : UploadEnv where
  aiReady := true
  wardrobeReady := true
  getImageHash := fun img => img.length
  checkDuplicate := fun _ _ => (false, "")
  batchAutoTag := fun imgs => imgs.map fun _ => tagsShirt
  saveItem := fun _ _ => (false, "db error")

/-! Claim theorems. -/

/-- The C1 claim as stated, as a predicate: every image contained in a
tagging call was checked non-duplicate (dedup filters tagging). -/
def onlyNonDuplicatesTagged (env : UploadEnv) (uid : String)
    (files : List Img) : Prop :=
  ∀ imgs, UploadEvent.tagCall imgs ∈ (upload_images env uid files).2 →
    ∀ img ∈ imgs, (env.checkDuplicate uid (env.getImageHash img)).1 = false

/-- C1 (counterexample): with a single uploaded image whose hash matches
a stored item, the image is nevertheless submitted to the tagging call —
`upload_images` tags ALL images in one batched call and only afterwards
runs the per-image duplicate check, so the claim as stated fails. -/
theorem upload_duplicate_still_tagged :
    ¬ onlyNonDuplicatesTagged envDup "u" [[0]] := by
  intro hclaim
  have hmem : UploadEvent.tagCall [[0]] ∈ (upload_images envDup "u" [[0]]).2 := by
    decide
  have hfalse := hclaim [[0]] hmem [0] (by decide)
  simp [envDup] at hfalse

/-- C1 (amended): in the batch upload operation every uploaded image,
duplicates included, is submitted to the single batched tagging call,
which precedes every per-image duplicate check; afterwards each image
whose content hash matches a stored item is classified duplicate and
skipped: it is counted in duplicate_count and no persistence call is ever
made for an image whose duplicate check reported true. -/
theorem upload_tag_then_dedup (env : UploadEnv) (uid : String)
    (files : List Img) (hai : env.aiReady = true) (hw : env.wardrobeReady = true)
    (hlen : ¬ files.length > 10)
    (htags : (env.batchAutoTag files).isEmpty = false) :
    (∃ rest, (upload_images env uid files).2
        = files.map UploadEvent.readFile ++ UploadEvent.tagCall files :: rest)
    ∧ (∀ item img, UploadEvent.saveCall item img ∈ (upload_images env uid files).2 →
        (env.checkDuplicate uid (env.getImageHash img)).1 = false)
    ∧ (∀ r, (upload_images env uid files).1 = .ok r →
        r.duplicate_count
          = (files.zip (env.batchAutoTag files)).countP (pairIsDup env uid)) := by
  have htr : (upload_images env uid files).2
      = files.map UploadEvent.readFile ++ UploadEvent.tagCall files
          :: (uploadLoop env uid (files.zip (env.batchAutoTag files))).2 := by
    simp [upload_images, hai, hw, hlen, htags]
  refine ⟨⟨_, htr⟩, ?_, ?_⟩
  · intro item img hmem
    rw [htr] at hmem
    rcases List.mem_append.1 hmem with hmem | hmem
    · exact absurd hmem (by simp)
    · rcases List.mem_cons.1 hmem with hmem | hmem
      · exact absurd hmem (by simp)
      · obtain ⟨p, _, hp1, _, hp3⟩ := uploadLoop_save_mem env uid _ item img hmem
        exact hp3
  · intro r hr
    have hfst : (upload_images env uid files).1
        = .ok ⟨true,
            (uploadLoop env uid (files.zip (env.batchAutoTag files))).1.success_count,
            (uploadLoop env uid (files.zip (env.batchAutoTag files))).1.duplicate_count,
            (uploadLoop env uid (files.zip (env.batchAutoTag files))).1.fail_count,
            (uploadLoop env uid (files.zip (env.batchAutoTag files))).1.items⟩ := by
      simp [upload_images, hai, hw, hlen, htags]
    rw [hfst] at hr
    cases hr
    simpa using uploadLoop_duplicate_count env uid (files.zip (env.batchAutoTag files))

/-- C1 witness: the amended theorem applied to the all-duplicates
environment with one uploaded image. -/
theorem upload_tag_then_dedup_witness :
    (¬ ([[0]] : List Img).length > 10)
    ∧ (envDup.batchAutoTag [[0]]).isEmpty = false
    ∧ ((∃ rest, (upload_images envDup "u" [[0]]).2
          = ([[0]] : List Img).map UploadEvent.readFile
              ++ UploadEvent.tagCall [[0]] :: rest)
        ∧ (∀ item img,
            UploadEvent.saveCall item img ∈ (upload_images envDup "u" [[0]]).2 →
            (envDup.checkDuplicate "u" (envDup.getImageHash img)).1 = false)
        ∧ (∀ r, (upload_images envDup "u" [[0]]).1 = .ok r →
            r.duplicate_count
              = (([[0]] : List Img).zip (envDup.batchAutoTag [[0]])).countP
                  (pairIsDup envDup "u"))) :=
  ⟨by decide, by decide,
   upload_tag_then_dedup envDup "u" [[0]] rfl rfl (by decide) (by decide)⟩

/-- C2: a call to the upload endpoint with more than 10 files is
rejected with the 400 error before any processing: the response is
exactly the 400 error and the external-call trace is empty — no file is
read, no tagging call is made, no duplicate check runs, and no item is
persisted. -/
theorem upload_too_many_files_rejected (env : UploadEnv) (uid : String)
    (files : List Img) (hai : env.aiReady = true) (hw : env.wardrobeReady = true)
    (hlen : files.length > 10) :
    upload_images env uid files = (.error ⟨400, "一次最多上傳 10 張圖片"⟩, []) := by
  simp [upload_images, hai, hw, hlen]

/-- C2 witness: eleven files are rejected with 400 and an empty trace. -/
theorem upload_too_many_files_rejected_witness :
    (List.replicate 11 ([0] : Img)).length > 10
    ∧ upload_images envFresh "u" (List.replicate 11 [0])
        = (.error ⟨400, "一次最多上傳 10 張圖片"⟩, []) :=
  ⟨by decide,
   upload_too_many_files_rejected envFresh "u" (List.replicate 11 [0]) rfl rfl
     (by decide)⟩

/-- C3: when the tagging service returns no tags at all (a falsy tag
list), the whole upload call aborts with the 500 error and no
persistence call appears in the trace. -/
theorem upload_no_tags_aborts (env : UploadEnv) (uid : String)
    (files : List Img) (hai : env.aiReady = true) (hw : env.wardrobeReady = true)
    (hlen : ¬ files.length > 10)
    (htags : (env.batchAutoTag files).isEmpty = true) :
    (upload_images env uid files).1 = .error ⟨500, "AI 辨識失敗"⟩
    ∧ ∀ item img,
        UploadEvent.saveCall item img ∉ (upload_images env uid files).2 := by
  constructor
  · simp [upload_images, hai, hw, hlen, htags]
  · intro item img hmem
    simp [upload_images, hai, hw, hlen, htags] at hmem

/-- C3 witness: a two-image upload whose tagging call returns nothing
aborts with 500 and performs no save. -/
theorem upload_no_tags_aborts_witness :
    (¬ ([[0], [1]] : List Img).length > 10)
    ∧ (envNoTags.batchAutoTag [[0], [1]]).isEmpty = true
    ∧ ((upload_images envNoTags "u" [[0], [1]]).1 = .error ⟨500, "AI 辨識失敗"⟩
        ∧ ∀ item img,
            UploadEvent.saveCall item img ∉ (upload_images envNoTags "u" [[0], [1]]).2) :=
  ⟨by decide, by decide,
   upload_no_tags_aborts envNoTags "u" [[0], [1]] rfl rfl (by decide) (by decide)⟩

/-- C4: persistence failures are counted per item and never abort the
batch: under the same conditions as any successful upload, the call
returns a normal aggregated response whose fail_count is exactly the
number of non-duplicate pairs whose save failed, the other two counters
and the newly-tagged-items list cover the rest of the pairs, and every
zipped pair — including the ones after a failure — still has its
duplicate check performed. -/
theorem upload_save_failure_does_not_abort (env : UploadEnv) (uid : String)
    (files : List Img) (hai : env.aiReady = true) (hw : env.wardrobeReady = true)
    (hlen : ¬ files.length > 10)
    (htags : (env.batchAutoTag files).isEmpty = false) :
    ∃ r, (upload_images env uid files).1 = .ok r
      ∧ r.success = true
      ∧ r.fail_count = (files.zip (env.batchAutoTag files)).countP
          (fun p => !pairIsDup env uid p && !pairSaved env uid p)
      ∧ r.success_count = (files.zip (env.batchAutoTag files)).countP
          (fun p => !pairIsDup env uid p && pairSaved env uid p)
      ∧ r.duplicate_count = (files.zip (env.batchAutoTag files)).countP
          (pairIsDup env uid)
      ∧ r.items = ((files.zip (env.batchAutoTag files)).filter
          (fun p => !pairIsDup env uid p && pairSaved env uid p)).map Prod.snd
      ∧ ∀ p ∈ files.zip (env.batchAutoTag files),
          UploadEvent.dupCheck uid (env.getImageHash p.1)
            ∈ (upload_images env uid files).2 := by
  have hfst : (upload_images env uid files).1
      = .ok ⟨true,
          (uploadLoop env uid (files.zip (env.batchAutoTag files))).1.success_count,
          (uploadLoop env uid (files.zip (env.batchAutoTag files))).1.duplicate_count,
          (uploadLoop env uid (files.zip (env.batchAutoTag files))).1.fail_count,
          (uploadLoop env uid (files.zip (env.batchAutoTag files))).1.items⟩ := by
    simp [upload_images, hai, hw, hlen, htags]
  have htr : (upload_images env uid files).2
      = files.map UploadEvent.readFile ++ UploadEvent.tagCall files
          :: (uploadLoop env uid (files.zip (env.batchAutoTag files))).2 := by
    simp [upload_images, hai, hw, hlen, htags]
  refine ⟨_, hfst, rfl, ?_, ?_, ?_, ?_, ?_⟩
  · simpa using uploadLoop_fail_count env uid (files.zip (env.batchAutoTag files))
  · simpa using uploadLoop_success_count env uid (files.zip (env.batchAutoTag files))
  · simpa using uploadLoop_duplicate_count env uid (files.zip (env.batchAutoTag files))
  · simpa using uploadLoop_items env uid (files.zip (env.batchAutoTag files))
  · intro p hp
    rw [htr]
    exact List.mem_append_right _
      (List.mem_cons_of_mem _ (uploadLoop_dupCheck_mem env uid _ p hp))

/-- C4 witness: the theorem applied to an environment whose persistence
always fails, with two uploaded images. -/
theorem upload_save_failure_does_not_abort_witness :
    (¬ ([[0], [1]] : List Img).length > 10)
    ∧ (envSaveFail.batchAutoTag [[0], [1]]).isEmpty = false
    ∧ ∃ r, (upload_images envSaveFail "u" [[0], [1]]).1 = .ok r
      ∧ r.success = true
      ∧ r.fail_count = (([[0], [1]] : List Img).zip
          (envSaveFail.batchAutoTag [[0], [1]])).countP
          (fun p => !pairIsDup envSaveFail "u" p && !pairSaved envSaveFail "u" p)
      ∧ r.success_count = (([[0], [1]] : List Img).zip
          (envSaveFail.batchAutoTag [[0], [1]])).countP
          (fun p => !pairIsDup envSaveFail "u" p && pairSaved envSaveFail "u" p)
      ∧ r.duplicate_count = (([[0], [1]] : List Img).zip
          (envSaveFail.batchAutoTag [[0], [1]])).countP (pairIsDup envSaveFail "u")
      ∧ r.items = ((([[0], [1]] : List Img).zip
          (envSaveFail.batchAutoTag [[0], [1]])).filter
          (fun p => !pairIsDup envSaveFail "u" p && pairSaved envSaveFail "u" p)).map
            Prod.snd
      ∧ ∀ p ∈ ([[0], [1]] : List Img).zip (envSaveFail.batchAutoTag [[0], [1]]),
          UploadEvent.dupCheck "u" (envSaveFail.getImageHash p.1)
            ∈ (upload_images envSaveFail "u" [[0], [1]]).2 :=
  ⟨by decide, by decide,
   upload_save_failure_does_not_abort envSaveFail "u" [[0], [1]] rfl rfl
     (by decide) (by decide)⟩

/-- C10: on every non-error upload response the three counters sum to
the number of zipped (image, tag) pairs — the minimum of the file count
and the tag-list length, so files beyond the tag list are silently
dropped and counted nowhere — and the returned items list has exactly
success_count entries. -/
theorem upload_counters_partition (env : UploadEnv) (uid : String)
    (files : List Img) (hai : env.aiReady = true) (hw : env.wardrobeReady = true)
    (hlen : ¬ files.length > 10)
    (htags : (env.batchAutoTag files).isEmpty = false) :
    ∃ r, (upload_images env uid files).1 = .ok r
      ∧ r.success_count + r.duplicate_count + r.fail_count
          = min files.length (env.batchAutoTag files).length
      ∧ r.items.length = r.success_count := by
  have hfst : (upload_images env uid files).1
      = .ok ⟨true,
          (uploadLoop env uid (files.zip (env.batchAutoTag files))).1.success_count,
          (uploadLoop env uid (files.zip (env.batchAutoTag files))).1.duplicate_count,
          (uploadLoop env uid (files.zip (env.batchAutoTag files))).1.fail_count,
          (uploadLoop env uid (files.zip (env.batchAutoTag files))).1.items⟩ := by
    simp [upload_images, hai, hw, hlen, htags]
  refine ⟨_, hfst, ?_, ?_⟩
  · have htot := uploadLoop_total env uid (files.zip (env.batchAutoTag files))
    have hzip := List.length_zip files (env.batchAutoTag files)
    simpa [hzip] using htot
  · have hitems := uploadLoop_items env uid (files.zip (env.batchAutoTag files))
    have hsucc := uploadLoop_success_count env uid (files.zip (env.batchAutoTag files))
    simp only [hitems, hsucc, List.length_map]
    exact (List.countP_eq_length_filter _ _).symm

/-- C10 witness: three files, three tags, none duplicate, all saves
succeed: the counters sum to three and the items list matches. -/
theorem upload_counters_partition_witness :
    (¬ ([[0], [1], [2]] : List Img).length > 10)
    ∧ (envFresh.batchAutoTag [[0], [1], [2]]).isEmpty = false
    ∧ ∃ r, (upload_images envFresh "u" [[0], [1], [2]]).1 = .ok r
      ∧ r.success_count + r.duplicate_count + r.fail_count
          = min ([[0], [1], [2]] : List Img).length
              (envFresh.batchAutoTag [[0], [1], [2]]).length
      ∧ r.items.length = r.success_count :=
  ⟨by decide, by decide,
   upload_counters_partition envFresh "u" [[0], [1], [2]] rfl rfl
     (by decide) (by decide)⟩

/-- C7: on a table where the username is free, registering (u, p) and
then logging in with (u, p) succeeds and returns the freshly inserted
user's id, while logging in with the same username and a different
password fails with the 401 mismatch error. -/
theorem register_then_login (db : UsersTable) (newId : Nat) (u p p' : String)
    (hfree : ∀ r ∈ db, r.username ≠ u) (hp : p' ≠ p) :
    (register (some db) newId u p).1 = .ok "註冊成功"
    ∧ login (register (some db) newId u p).2 u p = .ok ⟨toString newId, u⟩
    ∧ login (register (some db) newId u p).2 u p'
        = .error ⟨401, "帳號或密碼錯誤"⟩ := by
  have hfilter : db.filter (fun r => r.username == u) = [] :=
    List.filter_eq_nil_iff.2 (fun r hr => by simp [hfree r hr])
  have hreg : register (some db) newId u p
      = (.ok "註冊成功", some (db ++ [⟨newId, u, p⟩])) := by
    simp [register, hfilter]
  have hnomatch : ∀ pw : String,
      db.filter (fun r => r.username == u && r.password == pw) = [] :=
    fun pw => List.filter_eq_nil_iff.2 (fun r hr => by simp [hfree r hr])
  refine ⟨by rw [hreg], ?_, ?_⟩
  · rw [hreg]
    simp [login, List.filter_append, hnomatch p]
  · rw [hreg]
    simp [login, List.filter_append, hnomatch p', Ne.symm hp]

/-- C7 witness: registering alice on an empty table and logging in with
the right and a wrong password. -/
theorem register_then_login_witness :
    (∀ r ∈ ([] : UsersTable), r.username ≠ "alice")
    ∧ ("xx" : String) ≠ "pw"
    ∧ ((register (some []) 1 "alice" "pw").1 = .ok "註冊成功"
        ∧ login (register (some []) 1 "alice" "pw").2 "alice" "pw"
            = .ok ⟨toString 1, "alice"⟩
        ∧ login (register (some []) 1 "alice" "pw").2 "alice" "xx"
            = .error ⟨401, "帳號或密碼錯誤"⟩) :=
  ⟨by simp, by decide,
   register_then_login [] 1 "alice" "pw" "xx" (by simp) (by decide)⟩

/-- C8: registering a username that already has a row fails with the 400
username-exists error and returns the table unchanged: no insert is
performed and the existing record is untouched. -/
theorem register_existing_username_conflict (db : UsersTable) (newId : Nat)
    (u p : String) (r0 : UserRow) (hr0 : r0 ∈ db) (hu : r0.username = u) :
    register (some db) newId u p = (.error ⟨400, "使用者名稱已存在"⟩, some db) := by
  have hmem : r0 ∈ db.filter (fun r => r.username == u) :=
    List.mem_filter.2 ⟨hr0, by simp [hu]⟩
  have hne : (db.filter (fun r => r.username == u)).isEmpty = false :=
    List.isEmpty_eq_false.2 (List.ne_nil_of_mem hmem)
  simp [register, hne]

/-- C8 witness: re-registering alice fails with 400 and leaves her row
as the whole table. -/
theorem register_existing_username_conflict_witness :
    (⟨1, "alice", "pw"⟩ : UserRow) ∈ ([⟨1, "alice", "pw"⟩] : UsersTable)
    ∧ (⟨1, "alice", "pw"⟩ : UserRow).username = "alice"
    ∧ register (some [⟨1, "alice", "pw"⟩]) 2 "alice" "qq"
        = (.error ⟨400, "使用者名稱已存在"⟩, some [⟨1, "alice", "pw"⟩]) :=
  ⟨by decide, by decide,
   register_existing_username_conflict [⟨1, "alice", "pw"⟩] 2 "alice" "qq"
     ⟨1, "alice", "pw"⟩ (by decide) rfl⟩

theorem delStep_foldl_total (ids : List Nat) :
    ∀ s f w, (ids.foldl delStep (s, f, w)).1 + (ids.foldl delStep (s, f, w)).2.1
      = s + f + ids.length := by
  induction ids with
  | nil => intro s f w; simp
  | cons i rest ih =>
    intro s f w
    by_cases hc : i ∈ w
    · have h2 : List.foldl delStep (s, f, w) (i :: rest)
          = List.foldl delStep (s + 1, f, w.erase i) rest := by
        simp [delStep, hc]
      rw [h2, ih]
      simp only [List.length_cons]
      omega
    · have h2 : List.foldl delStep (s, f, w) (i :: rest)
          = List.foldl delStep (s, f + 1, w) rest := by
        simp [delStep, hc]
      rw [h2, ih]
      simp only [List.length_cons]
      omega

/-- C5: the batch-delete call attempts deletion for every id (the
success and fail tallies always sum to the number of ids requested) and
the overall success flag of the response is true only if every
individual deletion succeeded (a true flag forces a zero fail count). -/
theorem batch_delete_success_iff_no_fail (w : List Nat) (uid : String)
    (ids : List Nat) :
    ∃ succ s f w', batch_delete true w uid ids = (.ok (succ, s, f), w')
      ∧ s + f = ids.length
      ∧ (succ = true → f = 0) := by
  refine ⟨(batch_delete_items w ids).1.1, (batch_delete_items w ids).1.2.1,
    (batch_delete_items w ids).1.2.2, (batch_delete_items w ids).2, ?_, ?_, ?_⟩
  · simp [batch_delete]
  · simpa [batch_delete_items] using delStep_foldl_total ids 0 0 w
  · intro hsucc
    simpa [batch_delete_items] using hsucc

/-- C6: with all services ready, a recommendation request against an
empty wardrobe, or against a city with no weather data, fails with a 404
error; in the empty-wardrobe case no AI generation call appears in the
trace. -/
theorem recommendation_not_found (env : RecoEnv) (uid city style occ : String)
    (hai : env.aiReady = true) (hwea : env.weatherReady = true)
    (hwar : env.wardrobeReady = true)
    (h : (env.getWardrobe uid).isEmpty = true ∨ env.getWeather city = none) :
    (∃ d, (get_recommendation env uid city style occ).1 = .error ⟨404, d⟩)
    ∧ ((env.getWardrobe uid).isEmpty = true →
        RecoEvent.generateCall ∉ (get_recommendation env uid city style occ).2) := by
  by_cases hward : (env.getWardrobe uid).isEmpty = true
  · constructor
    · exact ⟨"衣櫥是空的，請先上傳衣服",
        by simp [get_recommendation, hai, hwea, hwar, hward]⟩
    · intro _
      simp [get_recommendation, hai, hwea, hwar, hward]
  · rcases h with h | h
    · exact absurd h hward
    · constructor
      · exact ⟨"無法獲取天氣資料",
          by simp [get_recommendation, hai, hwea, hwar, hward, h]⟩
      · intro hcontra
        exact absurd hcontra hward

/-- A recommendation environment with an empty wardrobe for every
user. -/
def envRecoEmpty : RecoEnv where
  aiReady := true
  weatherReady := true
  wardrobeReady := true
  getWardrobe := fun _ => []
  getWeather := fun _ => some ⟨25, "Sunny"⟩
  generateOutfit := fun _ _ _ _ => "wear the blue shirt"
  parseItems := fun _ w => w

/-- C6 witness: the theorem applied to the empty-wardrobe environment. -/
theorem recommendation_not_found_witness :
    ((envRecoEmpty.getWardrobe "u").isEmpty = true
      ∨ envRecoEmpty.getWeather "Taipei" = none)
    ∧ ((∃ d, (get_recommendation envRecoEmpty "u" "Taipei" "" "外出遊玩").1
          = .error ⟨404, d⟩)
        ∧ ((envRecoEmpty.getWardrobe "u").isEmpty = true →
            RecoEvent.generateCall
              ∉ (get_recommendation envRecoEmpty "u" "Taipei" "" "外出遊玩").2)) :=
  ⟨Or.inl (by decide),
   recommendation_not_found envRecoEmpty "u" "Taipei" "" "外出遊玩" rfl rfl rfl
     (Or.inl (by decide))⟩

/-- C9 (code divergence): the wardrobe, delete, and batch-delete
handlers raise their configuration-missing `HTTPException(503, ...)`
inside a `try` whose only handler is the broad `except Exception`, with
no `except HTTPException: raise` clause (unlike login, register,
weather, upload and recommendation) — so the 503 is caught and converted
into a 500 whose detail embeds `str(e)`.  An absent service handle is
therefore surfaced to the client of these three endpoints as 500, not as
the service-unavailable 503 the claim states. -/
theorem service_absent_surfaces_500_not_503 :
    get_wardrobe false (fun _ => []) "u"
      = .error ⟨500, "獲取衣櫥失敗: 503: 衣櫥服務未就緒"⟩
    ∧ delete_item false (fun _ _ => true) "u" 1
      = .error ⟨500, "刪除失敗: 503: 衣櫥服務未就緒"⟩
    ∧ (batch_delete false [] "u" []).1
      = .error ⟨500, "批次刪除失敗: 503: 衣櫥服務未就緒"⟩
    ∧ (500 : Nat) ≠ 503 :=
  ⟨rfl, rfl, rfl, by decide⟩
